import Mathlib

/-!
Verification of the infinite-canvas viewport engine, gesture layer and drag
subsystem. Numbers are modelled as rationals (the idealisation of JS floats);
the degenerate `fit` inputs, where JS float special values (Infinity / NaN)
are observable, are additionally modelled with an extended number type `JsNum`
that carries those special values.
-/

namespace Canvas

/-- A 2D point, from `types.ts` (`Point`). -/
structure Point where
  x : ℚ
  y : ℚ
deriving DecidableEq, Repr

/-- Viewport transformation state, from `types.ts` (`ViewportState`):
x/y offset in pixels and the zoom scale factor. -/
structure ViewportState where
  x : ℚ
  y : ℚ
  scale : ℚ
deriving DecidableEq, Repr

/-- The options record of `DOMCanvasManager` (the fields the core logic
reads; DOM class names and background styling carry no logic). -/
structure Options where
  minScale : ℚ
  maxScale : ℚ
  scaleSensitivity : ℚ
  enablePan : Bool
  enableZoom : Bool
deriving DecidableEq, Repr

/-- The constructor defaults: minScale 0.1, maxScale 10,
scaleSensitivity 0.001, pan and zoom enabled. -/
def defaultOptions : Options :=
  ⟨1/10, 10, 1/1000, true, true⟩

/-- The viewport state installed by the `DOMCanvasManager` constructor:
`{ x: 0, y: 0, scale: 1 }`, stored without any clamping. -/
def initialViewport : ViewportState :=
  ⟨0, 0, 1⟩

/-- A partial viewport update, as accepted by `setViewport`:
absent fields keep their current value. -/
structure PartialViewport where
  x : Option ℚ
  y : Option ℚ
  scale : Option ℚ
deriving DecidableEq, Repr

/-- `screenToWorld` from `dom-canvas-manager.ts`:
`world = (screen - offset) / scale`, component-wise. -/
def screenToWorld (v : ViewportState) (p : Point) : Point :=
  ⟨(p.x - v.x) / v.scale, (p.y - v.y) / v.scale⟩

/-- `worldToScreen` from `dom-canvas-manager.ts`:
`screen = world * scale + offset`, component-wise. -/
def worldToScreen (v : ViewportState) (p : Point) : Point :=
  ⟨p.x * v.scale + v.x, p.y * v.scale + v.y⟩

/-- The scale clamping performed inside `setViewport`: first raise to
`minScale` if below it, then lower to `maxScale` if above it (two
sequential `if` statements, in this order). -/
def clampScale (o : Options) (s : ℚ) : ℚ :=
  let s1 := if s < o.minScale then o.minScale else s
  if s1 > o.maxScale then o.maxScale else s1

/-- Result of a `setViewport` call: the new stored state and whether
`notifyViewportChange` was invoked (it is invoked exactly when some field
of the stored viewport differs, value-compared, from the state captured
at entry). -/
structure SetResult where
  state : ViewportState
  notified : Bool
deriving DecidableEq, Repr

/-- `setViewport` from `dom-canvas-manager.ts`: merge the partial fields
into the current state, clamp the scale, and notify listeners iff a field
actually changed. -/
def setViewport (o : Options) (v : ViewportState) (p : PartialViewport) : SetResult :=
  let merged : ViewportState :=
    ⟨p.x.getD v.x, p.y.getD v.y, clampScale o (p.scale.getD v.scale)⟩
  ⟨merged, decide (merged ≠ v)⟩

/-- `notifyViewportChange`: when a mutation notified, every registered
callback is applied exactly once to the new snapshot; otherwise no
callback runs. -/
def notifyViewportChange {α : Type} (callbacks : List (ViewportState → α))
    (r : SetResult) : List α :=
  if r.notified then callbacks.map (fun f => f r.state) else []

/-- The snapshots handed to change listeners by a `setViewport` call. -/
def notifiedSnapshots (r : SetResult) : List ViewportState :=
  if r.notified then [r.state] else []

/-- `panBy` from `dom-canvas-manager.ts`:
`setViewport({ x: x + dx, y: y + dy })`. -/
def panBy (o : Options) (v : ViewportState) (dx dy : ℚ) : SetResult :=
  setViewport o v ⟨some (v.x + dx), some (v.y + dy), none⟩

/-- `zoomTo` from `dom-canvas-manager.ts`, with the anchor `center` given
explicitly (the source defaults it to the container's centre when absent;
that default is resolved by the caller here). The source first computes the
world point under `center`, then directly mutates the stored scale, then
recomputes the screen point and calls `setViewport` with the corrected
offsets; the notification comparison inside that `setViewport` therefore
runs against the already-scale-mutated state `v1`. -/
def zoomTo (o : Options) (v : ViewportState) (scale : ℚ) (center : Point) : SetResult :=
  let worldPoint := screenToWorld v center
  let v1 : ViewportState := ⟨v.x, v.y, scale⟩
  let newScreenPoint := worldToScreen v1 worldPoint
  setViewport o v1
    ⟨some (v1.x + (center.x - newScreenPoint.x)),
     some (v1.y + (center.y - newScreenPoint.y)),
     some scale⟩

/-- `zoomBy` from `dom-canvas-manager.ts`: `newScale = scale * (1 + delta)`;
returns early (no mutation, no notification) when already at a limit and
the delta pushes further outward. -/
def zoomBy (o : Options) (v : ViewportState) (scaleDelta : ℚ) (center : Point) : SetResult :=
  if (o.maxScale ≤ v.scale ∧ 0 < scaleDelta) ∨ (v.scale ≤ o.minScale ∧ scaleDelta < 0) then
    ⟨v, false⟩
  else
    zoomTo o v (v.scale * (1 + scaleDelta)) center

/-- `centerOn` from `dom-canvas-manager.ts`, with the container size passed
explicitly (the source reads it from `getBoundingClientRect`). -/
def centerOn (o : Options) (v : ViewportState) (containerW containerH : ℚ)
    (worldPoint : Point) : SetResult :=
  let centerX := containerW / 2
  let centerY := containerH / 2
  let screenPoint := worldToScreen v worldPoint
  setViewport o v
    ⟨some (v.x + (centerX - screenPoint.x)),
     some (v.y + (centerY - screenPoint.y)),
     none⟩

/-- World-space rectangle argument of `fit`. -/
structure WorldBounds where
  minX : ℚ
  minY : ℚ
  maxX : ℚ
  maxY : ℚ
deriving DecidableEq, Repr

/-- `fit` from `dom-canvas-manager.ts` over rationals: scale to fit the
padded bounds (`min(scaleX, scaleY)`), then centre on the bounds' centroid.
The source performs no degenerate-geometry check; the rational model is
faithful whenever both bounds extents are nonzero (degenerate inputs are
modelled separately with `JsNum`). Returns the result of the second,
final `setViewport` (the one performed by `centerOn`). -/
def fit (o : Options) (v : ViewportState) (containerW containerH : ℚ)
    (b : WorldBounds) (padding : ℚ) : SetResult :=
  let cw := containerW - 2 * padding
  let ch := containerH - 2 * padding
  let boundsWidth := b.maxX - b.minX
  let boundsHeight := b.maxY - b.minY
  let scale := min (cw / boundsWidth) (ch / boundsHeight)
  let centerX := (b.minX + b.maxX) / 2
  let centerY := (b.minY + b.maxY) / 2
  let r1 := setViewport o v ⟨none, none, some scale⟩
  centerOn o r1.state containerW containerH ⟨centerX, centerY⟩

/-- `reset` from `dom-canvas-manager.ts`: `setViewport({x: 0, y: 0, scale: 1})`. -/
def reset (o : Options) (v : ViewportState) : SetResult :=
  setViewport o v ⟨some 0, some 0, some 1⟩

/-! ## Drag subsystem (`useDragSystem.ts`) -/

/-- The drag session state of `useDragSystem.ts` (`DragState`). -/
structure DragState where
  isDragging : Bool
  draggedEntityId : Option String
  dragOffset : Point
  startPosition : Point
deriving DecidableEq, Repr

/-- The initial / cleared drag state. -/
def clearedDragState : DragState :=
  ⟨false, none, ⟨0, 0⟩, ⟨0, 0⟩⟩

/-- A movable element (`Entity` in `useDragSystem.ts`): id and world
position (domain fields carry no drag logic). -/
structure Entity where
  id : String
  position : Point
deriving DecidableEq, Repr

/-- `entities.find(e => e.id === entityId)` in `handleDragStart`. -/
def findEntity (entities : List Entity) (entityId : String) : Option Entity :=
  entities.find? (fun e => e.id == entityId)

/-- The hook's own `screenToWorld`: converts with the viewport state it is
called with — `worldPoint = (screenPoint - offset) / scale`. -/
def dragScreenToWorld (v : ViewportState) (p : Point) : Point :=
  ⟨(p.x - v.x) / v.scale, (p.y - v.y) / v.scale⟩

/-- `handleDragStart` from `useDragSystem.ts`: no-op when the entity is
unknown; otherwise records the pointer-to-entity screen offset computed
from the viewport current at drag start, and marks the session active. -/
def handleDragStart (entities : List Entity) (v : ViewportState)
    (entityId : String) (mousePos : Point) (s : DragState) : DragState :=
  match findEntity entities entityId with
  | none => s
  | some entity =>
    let entityScreenPos : Point :=
      ⟨entity.position.x * v.scale + v.x, entity.position.y * v.scale + v.y⟩
    let offset : Point :=
      ⟨mousePos.x - entityScreenPos.x, mousePos.y - entityScreenPos.y⟩
    ⟨true, some entityId, offset, entity.position⟩

/-- `handleDragMove` from `useDragSystem.ts`: no-op without an active
session; otherwise computes the target screen position
(`pointer - recordedOffset`), converts it to world space with the viewport
state passed in NOW (not the one at drag start), and returns the
`onEntityMove` callback invocation (entity id, new world position). -/
def handleDragMove (v : ViewportState) (s : DragState) (mousePos : Point) :
    Option (String × Point) :=
  if s.isDragging then
    match s.draggedEntityId with
    | none => none
    | some entityId =>
      let newScreenPos : Point :=
        ⟨mousePos.x - s.dragOffset.x, mousePos.y - s.dragOffset.y⟩
      some (entityId, dragScreenToWorld v newScreenPos)
  else none

/-! ## Wheel handling (`DOMPanZoomHandler.handleWheel`) -/

/-- The `deltaMode` of a DOM wheel event: 0 pixel, 1 line, 2 page. -/
inductive DeltaMode where
  | pixel : DeltaMode
  | line : DeltaMode
  | page : DeltaMode
deriving DecidableEq, Repr

/-- The delta-mode normalisation in `handleWheel`: line mode multiplies by
16, page mode by 400, pixel mode leaves the delta unchanged. -/
def normalizeWheelDelta (mode : DeltaMode) (deltaY : ℚ) : ℚ :=
  match mode with
  | .pixel => deltaY
  | .line => deltaY * 16
  | .page => deltaY * 400

/-- JS `Math.sign` restricted to rationals: 1, -1 or 0. -/
def jsSign (q : ℚ) : ℚ :=
  if 0 < q then 1 else if q < 0 then -1 else 0

/-- `DOMPanZoomHandler.handleWheel` as a pure function: given the options,
the container's bounding-rect origin and the wheel event fields, returns
the `(scaleDelta, center)` argument pair of the `manager.zoomBy` call it
performs, or `none` when it performs no zoom (zoom disabled, or zero
vertical delta). `deltaX` is accepted but never read, as in the source. -/
def handleWheel (o : Options) (rectLeft rectTop : ℚ)
    (deltaX deltaY : ℚ) (mode : DeltaMode) (clientX clientY : ℚ) :
    Option (ℚ × Point) :=
  if o.enableZoom then
    let center : Point := ⟨clientX - rectLeft, clientY - rectTop⟩
    let normalizedDelta := normalizeWheelDelta mode deltaY
    let delta := jsSign normalizedDelta * min (|normalizedDelta| * o.scaleSensitivity) (1/10)
    if 0 < |deltaY| then some (-delta, center) else none
  else none

/-- Composition of the wheel handler with the manager: the viewport state
after one wheel event (unchanged, without notification, when the handler
performs no zoom). -/
def wheelZoom (o : Options) (v : ViewportState) (rectLeft rectTop : ℚ)
    (deltaX deltaY : ℚ) (mode : DeltaMode) (clientX clientY : ℚ) : SetResult :=
  match handleWheel o rectLeft rectTop deltaX deltaY mode clientX clientY with
  | some (d, c) => zoomBy o v d c
  | none => ⟨v, false⟩

/-! ## JS number semantics for degenerate `fit` inputs

`fit` divides by the bounds extents without any zero check, so JS float
special values (±Infinity, NaN) are observable there. `JsNum` is the
rationals extended with those special values, with the JS semantics of the
operations the `fit` code path uses (negative zero is not modelled: every
zero divisor reached in `fit` arises as `a - a`, which is +0 in JS). -/

inductive JsNum where
  | num : ℚ → JsNum
  | posInf : JsNum
  | negInf : JsNum
  | nan : JsNum
deriving DecidableEq, Repr

/-- JS negation. -/
def JsNum.neg : JsNum → JsNum
  | .num a => .num (-a)
  | .posInf => .negInf
  | .negInf => .posInf
  | .nan => .nan

/-- JS addition: NaN absorbs, opposite infinities give NaN. -/
def JsNum.add : JsNum → JsNum → JsNum
  | .nan, _ => .nan
  | _, .nan => .nan
  | .posInf, .negInf => .nan
  | .negInf, .posInf => .nan
  | .posInf, _ => .posInf
  | _, .posInf => .posInf
  | .negInf, _ => .negInf
  | _, .negInf => .negInf
  | .num a, .num b => .num (a + b)

/-- JS subtraction: `a - b = a + (-b)`. -/
def JsNum.sub (a b : JsNum) : JsNum :=
  JsNum.add a (JsNum.neg b)

/-- JS multiplication: NaN absorbs, infinity times zero is NaN. -/
def JsNum.mul : JsNum → JsNum → JsNum
  | .nan, _ => .nan
  | _, .nan => .nan
  | .num a, .num b => .num (a * b)
  | .posInf, .posInf => .posInf
  | .posInf, .negInf => .negInf
  | .negInf, .posInf => .negInf
  | .negInf, .negInf => .posInf
  | .posInf, .num b => if b = 0 then .nan else if 0 < b then .posInf else .negInf
  | .num a, .posInf => if a = 0 then .nan else if 0 < a then .posInf else .negInf
  | .negInf, .num b => if b = 0 then .nan else if 0 < b then .negInf else .posInf
  | .num a, .negInf => if a = 0 then .nan else if 0 < a then .negInf else .posInf

/-- JS division: `x / +0` is sign(x)·Infinity, `0 / 0` is NaN, a finite
number over an infinity is 0, infinity over infinity is NaN. -/
def JsNum.div : JsNum → JsNum → JsNum
  | .nan, _ => .nan
  | _, .nan => .nan
  | .num a, .num b =>
    if b = 0 then (if a = 0 then .nan else if 0 < a then .posInf else .negInf)
    else .num (a / b)
  | .posInf, .num b => if 0 ≤ b then .posInf else .negInf
  | .negInf, .num b => if 0 ≤ b then .negInf else .posInf
  | .num _, .posInf => .num 0
  | .num _, .negInf => .num 0
  | .posInf, .posInf => .nan
  | .posInf, .negInf => .nan
  | .negInf, .posInf => .nan
  | .negInf, .negInf => .nan

/-- JS `Math.min`: NaN absorbs, otherwise the usual order with infinities. -/
def JsNum.jsMin : JsNum → JsNum → JsNum
  | .nan, _ => .nan
  | _, .nan => .nan
  | .posInf, b => b
  | a, .posInf => a
  | .negInf, _ => .negInf
  | _, .negInf => .negInf
  | .num a, .num b => .num (min a b)

/-- JS `<`: false whenever either side is NaN. -/
def JsNum.lt : JsNum → JsNum → Bool
  | .nan, _ => false
  | _, .nan => false
  | .num a, .num b => decide (a < b)
  | .negInf, .negInf => false
  | .negInf, _ => true
  | _, .negInf => false
  | .posInf, _ => false
  | .num _, .posInf => true

/-- JS `===` on numbers: NaN equals nothing (including itself). -/
def JsNum.jsEq : JsNum → JsNum → Bool
  | .nan, _ => false
  | _, .nan => false
  | .num a, .num b => a == b
  | .posInf, .posInf => true
  | .negInf, .negInf => true
  | _, _ => false

/-- Viewport state over JS numbers. -/
structure ViewportStateJ where
  x : JsNum
  y : JsNum
  scale : JsNum
deriving DecidableEq, Repr

/-- The constructor's viewport state over JS numbers. -/
def initialViewportJ : ViewportStateJ :=
  ⟨.num 0, .num 0, .num 1⟩

/-- Result of a `setViewport` call over JS numbers. -/
structure SetResultJ where
  state : ViewportStateJ
  notified : Bool
deriving DecidableEq, Repr

/-- The `setViewport` scale clamping over JS numbers: the two sequential
`if` statements, with JS comparison semantics (`scale > max` is
`JsNum.lt max scale`); a NaN scale passes both tests unchanged. -/
def clampScaleJ (minS maxS s : JsNum) : JsNum :=
  let s1 := if JsNum.lt s minS then minS else s
  if JsNum.lt maxS s1 then maxS else s1

/-- `setViewport` over JS numbers: merge, clamp scale, notify iff some
field differs under `!==`. -/
def setViewportJ (minS maxS : JsNum) (v : ViewportStateJ)
    (px py ps : Option JsNum) : SetResultJ :=
  let merged : ViewportStateJ :=
    ⟨px.getD v.x, py.getD v.y, clampScaleJ minS maxS (ps.getD v.scale)⟩
  ⟨merged, !(JsNum.jsEq v.x merged.x) || !(JsNum.jsEq v.y merged.y)
             || !(JsNum.jsEq v.scale merged.scale)⟩

/-- `centerOn` over JS numbers (container size passed explicitly). -/
def centerOnJ (minS maxS : JsNum) (v : ViewportStateJ) (containerW containerH : JsNum)
    (wx wy : JsNum) : SetResultJ :=
  let centerX := JsNum.div containerW (.num 2)
  let centerY := JsNum.div containerH (.num 2)
  let screenX := JsNum.add (JsNum.mul wx v.scale) v.x
  let screenY := JsNum.add (JsNum.mul wy v.scale) v.y
  setViewportJ minS maxS v
    (some (JsNum.add v.x (JsNum.sub centerX screenX)))
    (some (JsNum.add v.y (JsNum.sub centerY screenY)))
    none

/-- `fit` over JS numbers, mirroring the source line by line: padded
container extents, bounds extents, `scaleX`/`scaleY` by division with no
zero check, `Math.min`, then `setViewport({scale})` followed by
`centerOn(centroid)`. Returns the final result (of the `centerOn`). -/
def fitJ (minS maxS : JsNum) (v : ViewportStateJ) (containerW containerH : JsNum)
    (minX minY maxX maxY padding : JsNum) : SetResultJ :=
  let cw := JsNum.sub containerW (JsNum.mul (.num 2) padding)
  let ch := JsNum.sub containerH (JsNum.mul (.num 2) padding)
  let boundsWidth := JsNum.sub maxX minX
  let boundsHeight := JsNum.sub maxY minY
  let scaleX := JsNum.div cw boundsWidth
  let scaleY := JsNum.div ch boundsHeight
  let scale := JsNum.jsMin scaleX scaleY
  let centerX := JsNum.div (JsNum.add minX maxX) (.num 2)
  let centerY := JsNum.div (JsNum.add minY maxY) (.num 2)
  let r1 := setViewportJ minS maxS v none none (some scale)
  centerOnJ minS maxS r1.state containerW containerH centerX centerY

/-- Whether a JS number is NaN or an infinity. -/
def JsNum.nonFinite : JsNum → Bool
  | .num _ => false
  | _ => true

/-- The data-model invariant on the viewport state:
`minScale ≤ scale ≤ maxScale`. -/
def scaleInv (o : Options) (v : ViewportState) : Prop :=
  o.minScale ≤ v.scale ∧ v.scale ≤ o.maxScale

/-- The data-model invariant over JS numbers: the stored scale is a finite
number that lies between the bounds (NaN and the infinities violate it). -/
def scaleInvJ (minS maxS : ℚ) (v : ViewportStateJ) : Prop :=
  ∃ q : ℚ, v.scale = JsNum.num q ∧ minS ≤ q ∧ q ≤ maxS

/-! ## Helper lemmas about the clamping -/

theorem clampScale_eq_self (o : Options) (s : ℚ)
    (h1 : o.minScale ≤ s) (h2 : s ≤ o.maxScale) : clampScale o s = s := by
  simp only [clampScale]
  split_ifs <;> linarith

theorem clampScale_mem (o : Options) (s : ℚ) (h : o.minScale ≤ o.maxScale) :
    o.minScale ≤ clampScale o s ∧ clampScale o s ≤ o.maxScale := by
  simp only [clampScale]
  split_ifs <;> constructor <;> linarith

theorem clampScale_le (o : Options) (s b : ℚ)
    (hmin : o.minScale ≤ b) (hs : s ≤ b) : clampScale o s ≤ b := by
  simp only [clampScale]
  split_ifs <;> linarith

theorem le_clampScale (o : Options) (s b : ℚ)
    (hmax : b ≤ o.maxScale) (hs : b ≤ s) : b ≤ clampScale o s := by
  simp only [clampScale]
  split_ifs <;> linarith

theorem clampScale_closed_form (o : Options) (s : ℚ) (h : o.minScale ≤ o.maxScale) :
    clampScale o s = max o.minScale (min s o.maxScale) := by
  simp only [clampScale]
  rcases le_total s o.minScale with hl | hl <;> rcases le_total s o.maxScale with hr | hr <;>
    split_ifs <;>
    simp [max_eq_left, max_eq_right, min_eq_left, min_eq_right, *] <;> linarith

/-! ## Claim theorems -/

/-- Claim C1: for every viewport state with nonzero scale and every point
`p`, `screenToWorld` and `worldToScreen` are exact inverses:
`worldToScreen (screenToWorld p) = p` and
`screenToWorld (worldToScreen p) = p` (exactly, over the rational
idealisation of float arithmetic). -/
theorem screen_world_roundtrip (v : ViewportState) (hs : v.scale ≠ 0) (p : Point) :
    worldToScreen v (screenToWorld v p) = p ∧
    screenToWorld v (worldToScreen v p) = p := by
  obtain ⟨px, py⟩ := p
  constructor <;>
  · simp only [worldToScreen, screenToWorld, Point.mk.injEq]
    constructor <;> field_simp

/-- Witness for C1 at the viewport `{x: 3, y: 4, scale: 2}` and the point
`(5, 6)`. -/
theorem screen_world_roundtrip_witness :
    worldToScreen ⟨3, 4, 2⟩ (screenToWorld ⟨3, 4, 2⟩ ⟨5, 6⟩) = ⟨5, 6⟩ ∧
    screenToWorld ⟨3, 4, 2⟩ (worldToScreen ⟨3, 4, 2⟩ ⟨5, 6⟩) = ⟨5, 6⟩ :=
  screen_world_roundtrip ⟨3, 4, 2⟩ (by norm_num) ⟨5, 6⟩

/-- Counterexample to claim C2 as stated: with the default bounds
(maxScale 10), viewport `{0, 0, 1}` and center `(100, 100)`, the call
`zoomTo(20, center)` computes its offset correction from the unclamped
target scale 20 but stores the clamped scale 10, so the world point that
was under the center lands at `(-900, -900)`, not at the center. -/
theorem zoomTo_anchor_cex :
    worldToScreen (zoomTo defaultOptions ⟨0, 0, 1⟩ 20 ⟨100, 100⟩).state
        (screenToWorld ⟨0, 0, 1⟩ ⟨100, 100⟩) = ⟨-900, -900⟩ ∧
    (⟨-900, -900⟩ : Point) ≠ (⟨100, 100⟩ : Point) := by
  constructor
  · norm_num [worldToScreen, zoomTo, screenToWorld, setViewport, clampScale, defaultOptions]
  · simp only [ne_eq, Point.mk.injEq, not_and]
    norm_num

/-- Claim C2, amended: when the target scale lies within
`[minScale, maxScale]` (so that clamping does not alter it) and the
current scale is nonzero, the world point under `center` before
`zoomTo(newScale, center)` maps exactly to `center` afterwards. -/
theorem zoomTo_anchor_invariance (o : Options) (v : ViewportState)
    (newScale : ℚ) (center : Point) (hs : v.scale ≠ 0)
    (h1 : o.minScale ≤ newScale) (h2 : newScale ≤ o.maxScale) :
    worldToScreen (zoomTo o v newScale center).state
      (screenToWorld v center) = center := by
  obtain ⟨cx, cy⟩ := center
  simp only [zoomTo, setViewport, screenToWorld, worldToScreen,
    clampScale_eq_self o newScale h1 h2, Option.getD_some, Point.mk.injEq]
  constructor <;> field_simp <;> ring

/-- Witness for the amended C2 at the default options, viewport
`{3, 4, 2}`, target scale 5 and center `(7, 8)`. -/
theorem zoomTo_anchor_invariance_witness :
    worldToScreen (zoomTo defaultOptions ⟨3, 4, 2⟩ 5 ⟨7, 8⟩).state
      (screenToWorld ⟨3, 4, 2⟩ ⟨7, 8⟩) = ⟨7, 8⟩ :=
  zoomTo_anchor_invariance defaultOptions ⟨3, 4, 2⟩ 5 ⟨7, 8⟩
    (by norm_num) (by norm_num [defaultOptions]) (by norm_num [defaultOptions])

/-- Claim C3: `setViewport({scale: s})` stores `clamp(s, minScale, maxScale)`
(the code's sequential clamp, which for a well-ordered configuration equals
`max minScale (min s maxScale)`); repeating the call with the same `s`
produces no further change notification; in general a call that changes no
stored field notifies no listener, and a call that changes at least one
field invokes every registered listener exactly once, on the new snapshot. -/
theorem setViewport_clamp_notify (o : Options) (v : ViewportState) (s : ℚ) :
    (setViewport o v ⟨none, none, some s⟩).state.scale = clampScale o s ∧
    (o.minScale ≤ o.maxScale →
      (setViewport o v ⟨none, none, some s⟩).state.scale =
        max o.minScale (min s o.maxScale)) ∧
    (setViewport o (setViewport o v ⟨none, none, some s⟩).state
        ⟨none, none, some s⟩).notified = false ∧
    (∀ p : PartialViewport,
      ((setViewport o v p).notified = true ↔ (setViewport o v p).state ≠ v)) ∧
    (∀ (callbacks : List (ViewportState → ViewportState)) (p : PartialViewport),
      notifyViewportChange callbacks (setViewport o v p) =
        if (setViewport o v p).state ≠ v then
          callbacks.map (fun f => f (setViewport o v p).state)
        else []) := by
  refine ⟨rfl, fun h => clampScale_closed_form o s h, ?_, ?_, ?_⟩
  · simp [setViewport]
  · intro p
    simp [setViewport]
  · intro callbacks p
    simp only [notifyViewportChange, setViewport, decide_not]
    split_ifs with h1 h2 h2 <;> simp_all

/-- Witness for C3 at the default options, viewport `{0, 0, 1}` and
`s = 50` (clamped to 10). -/
theorem setViewport_clamp_notify_witness :
    (setViewport defaultOptions ⟨0, 0, 1⟩ ⟨none, none, some 50⟩).state.scale =
      max defaultOptions.minScale (min 50 defaultOptions.maxScale) ∧
    (setViewport defaultOptions
        (setViewport defaultOptions ⟨0, 0, 1⟩ ⟨none, none, some 50⟩).state
        ⟨none, none, some 50⟩).notified = false :=
  ⟨(setViewport_clamp_notify defaultOptions ⟨0, 0, 1⟩ 50).2.1
      (by norm_num [defaultOptions]),
   (setViewport_clamp_notify defaultOptions ⟨0, 0, 1⟩ 50).2.2.1⟩

/-- Counterexample to claim C4 as stated: for the configuration with
`minScale = 2` the constructor still stores scale 1 unclamped, so the
invariant `minScale ≤ scale` fails on the state created at construction. -/
theorem initial_scale_unclamped_cex :
    initialViewport.scale = 1 ∧
    (Options.mk 2 10 (1/1000) true true).minScale = 2 ∧
    ¬ scaleInv (Options.mk 2 10 (1/1000) true true) initialViewport := by
  refine ⟨rfl, rfl, ?_⟩
  simp only [scaleInv, initialViewport, not_and]
  norm_num

/-- Claim C4, amended: the constructed state `{0, 0, 1}` satisfies
`minScale ≤ scale ≤ maxScale` provided the configuration brackets the
default scale 1 (the constructor never clamps); for any configuration
with `minScale ≤ 1 ≤ maxScale`, `setViewport`, `panBy`, `zoomTo`,
`zoomBy`, `centerOn`, `reset` and `fit` with non-degenerate geometry
(both bounds extents nonzero, where the rational model is faithful to the
float code) leave a state satisfying the invariant, and every snapshot
handed to a change listener by `setViewport` satisfies it. `fit` with
zero-area bounds is excluded: over JS float semantics it can store a NaN
scale that passes both clamp comparisons, violating the invariant and
notifying listeners with that state (the final conjunct, at the default
bounds 0.1/10, container 40×600, padding 20, zero-width bounds). -/
theorem viewport_scale_invariant (o : Options)
    (h1 : o.minScale ≤ 1) (h2 : (1 : ℚ) ≤ o.maxScale) :
    scaleInv o initialViewport ∧
    (∀ v p, scaleInv o (setViewport o v p).state) ∧
    (∀ v dx dy, scaleInv o (panBy o v dx dy).state) ∧
    (∀ v s c, scaleInv o (zoomTo o v s c).state) ∧
    (∀ v d c, scaleInv o v → scaleInv o (zoomBy o v d c).state) ∧
    (∀ v cw ch w, scaleInv o (centerOn o v cw ch w).state) ∧
    (∀ v cw ch (b : WorldBounds) pad, b.maxX ≠ b.minX → b.maxY ≠ b.minY →
      scaleInv o (fit o v cw ch b pad).state) ∧
    (∀ v, scaleInv o (reset o v).state) ∧
    (∀ v p w, w ∈ notifiedSnapshots (setViewport o v p) → scaleInv o w) ∧
    ((fitJ (.num (1/10)) (.num 10) initialViewportJ (.num 40) (.num 600)
        (.num 0) (.num 0) (.num 0) (.num 200) (.num 20)).state.scale = JsNum.nan ∧
      (fitJ (.num (1/10)) (.num 10) initialViewportJ (.num 40) (.num 600)
        (.num 0) (.num 0) (.num 0) (.num 200) (.num 20)).notified = true ∧
      ¬ scaleInvJ (1/10) 10
        (fitJ (.num (1/10)) (.num 10) initialViewportJ (.num 40) (.num 600)
          (.num 0) (.num 0) (.num 0) (.num 200) (.num 20)).state) := by
  have hmm : o.minScale ≤ o.maxScale := le_trans h1 h2
  have hset : ∀ v p, scaleInv o (setViewport o v p).state := by
    intro v p
    exact clampScale_mem o _ hmm
  have hnan : (fitJ (.num (1/10)) (.num 10) initialViewportJ (.num 40) (.num 600)
      (.num 0) (.num 0) (.num 0) (.num 200) (.num 20)).state.scale = JsNum.nan ∧
      (fitJ (.num (1/10)) (.num 10) initialViewportJ (.num 40) (.num 600)
        (.num 0) (.num 0) (.num 0) (.num 200) (.num 20)).notified = true := by
    constructor <;>
      norm_num [fitJ, centerOnJ, setViewportJ, clampScaleJ, initialViewportJ,
        JsNum.div, JsNum.sub, JsNum.add, JsNum.neg, JsNum.mul, JsNum.jsMin,
        JsNum.lt, JsNum.jsEq]
  refine ⟨⟨h1, h2⟩, hset, ?_, ?_, ?_, ?_, ?_, ?_, ?_, hnan.1, hnan.2, ?_⟩
  · intro v dx dy; exact hset _ _
  · intro v s c; exact hset _ _
  · intro v d c hv
    simp only [zoomBy]
    split_ifs
    · exact hv
    · exact hset _ _
  · intro v cw ch w; exact hset _ _
  · intro v cw ch b pad hbx hby; exact hset _ _
  · intro v; exact hset _ _
  · intro v p w hw
    simp only [notifiedSnapshots] at hw
    split_ifs at hw
    · simp only [List.mem_singleton] at hw
      exact hw ▸ hset v p
    · simp at hw
  · rintro ⟨q, hq, -⟩
    rw [hnan.1] at hq
    exact JsNum.noConfusion hq

/-- Witness for the amended C4 at the default options: the initial state,
a `setViewport` call pushing the scale above the maximum, and a
non-degenerate `fit` (the spec's 800×600 / 400×200 / padding-20 scenario)
all satisfy the invariant. -/
theorem viewport_scale_invariant_witness :
    scaleInv defaultOptions initialViewport ∧
    scaleInv defaultOptions
      (setViewport defaultOptions ⟨0, 0, 1⟩ ⟨none, none, some 50⟩).state ∧
    scaleInv defaultOptions
      (fit defaultOptions initialViewport 800 600 ⟨0, 0, 400, 200⟩ 20).state :=
  ⟨(viewport_scale_invariant defaultOptions (by norm_num [defaultOptions])
      (by norm_num [defaultOptions])).1,
   (viewport_scale_invariant defaultOptions (by norm_num [defaultOptions])
      (by norm_num [defaultOptions])).2.1 ⟨0, 0, 1⟩ ⟨none, none, some 50⟩,
   (viewport_scale_invariant defaultOptions (by norm_num [defaultOptions])
      (by norm_num [defaultOptions])).2.2.2.2.2.2.1 initialViewport 800 600
     ⟨0, 0, 400, 200⟩ 20 (by norm_num) (by norm_num)⟩

/-- Claim C5 is violated by the code: `fit` performs no degenerate-geometry
check. With default bounds, container 800×600, padding 20 and the
zero-width bounds `{0, 0, 0, 200}`, the JS evaluation computes
`scaleX = 760 / 0 = Infinity`, `scale = min(Infinity, 2.8) = 2.8`, and
mutates the viewport (with a change notification) instead of skipping; and
with container width 40 (content area exactly 0) the same call computes
`0 / 0 = NaN`, which passes the clamp untouched, leaving a viewport whose
fields are all NaN. -/
theorem fit_degenerate_not_skipped :
    (fitJ (.num (1/10)) (.num 10) initialViewportJ (.num 800) (.num 600)
        (.num 0) (.num 0) (.num 0) (.num 200) (.num 20)).state =
      ⟨.num 400, .num 20, .num (14/5)⟩ ∧
    (fitJ (.num (1/10)) (.num 10) initialViewportJ (.num 800) (.num 600)
        (.num 0) (.num 0) (.num 0) (.num 200) (.num 20)).state ≠ initialViewportJ ∧
    (fitJ (.num (1/10)) (.num 10) initialViewportJ (.num 800) (.num 600)
        (.num 0) (.num 0) (.num 0) (.num 200) (.num 20)).notified = true ∧
    (fitJ (.num (1/10)) (.num 10) initialViewportJ (.num 40) (.num 600)
        (.num 0) (.num 0) (.num 0) (.num 200) (.num 20)).state =
      ⟨JsNum.nan, JsNum.nan, JsNum.nan⟩ := by
  refine ⟨?_, ?_, ?_, ?_⟩ <;>
    norm_num [fitJ, centerOnJ, setViewportJ, clampScaleJ, initialViewportJ,
      JsNum.div, JsNum.sub, JsNum.add, JsNum.neg, JsNum.mul, JsNum.jsMin,
      JsNum.lt, JsNum.jsEq]

/-- Claim C6: with the scale at a bound and a delta pushing outward,
`zoomBy` is a no-op — state unchanged, no notification; otherwise it
behaves exactly as `zoomTo(scale * (1 + delta), center)`. Stated for
states satisfying the data-model invariant `minScale ≤ scale ≤ maxScale`
(the code's early-exit tests `scale >= maxScale` / `scale <= minScale`
coincide with equality exactly there). -/
theorem zoomBy_limit_noop (o : Options) (v : ViewportState) (d : ℚ) (c : Point)
    (hmin : o.minScale ≤ v.scale) (hmax : v.scale ≤ o.maxScale) :
    (v.scale = o.maxScale → 0 < d → zoomBy o v d c = ⟨v, false⟩) ∧
    (v.scale = o.minScale → d < 0 → zoomBy o v d c = ⟨v, false⟩) ∧
    (¬(v.scale = o.maxScale ∧ 0 < d) → ¬(v.scale = o.minScale ∧ d < 0) →
      zoomBy o v d c = zoomTo o v (v.scale * (1 + d)) c) := by
  refine ⟨?_, ?_, ?_⟩
  · intro he hd
    simp only [zoomBy]
    rw [if_pos (Or.inl ⟨le_of_eq he.symm, hd⟩)]
  · intro he hd
    simp only [zoomBy]
    rw [if_pos (Or.inr ⟨le_of_eq he, hd⟩)]
  · intro hne1 hne2
    simp only [zoomBy]
    rw [if_neg]
    rintro (⟨ha, hb⟩ | ⟨ha, hb⟩)
    · exact hne1 ⟨le_antisymm hmax ha, hb⟩
    · exact hne2 ⟨le_antisymm ha hmin, hb⟩

/-- Witness for C6 at the default options: scale at the maximum (10) and
`zoomBy(+0.5)` leaves the state untouched without notifying. -/
theorem zoomBy_limit_noop_witness :
    zoomBy defaultOptions ⟨5, 6, 10⟩ (1/2) ⟨0, 0⟩ = ⟨⟨5, 6, 10⟩, false⟩ :=
  (zoomBy_limit_noop defaultOptions ⟨5, 6, 10⟩ (1/2) ⟨0, 0⟩
      (by norm_num [defaultOptions]) (by norm_num [defaultOptions])).1
    (by norm_num [defaultOptions]) (by norm_num)

/-- Claim C7: once a drag session is active, every drag-move converts the
offset-corrected pointer position with the viewport state passed to it at
that move — not the one recorded at drag start — so a pan of the viewport
by `(dx, dy)` accompanied by the same shift of the pointer yields the
identical world position. -/
theorem dragMove_reads_live_viewport (entities : List Entity) (e : Entity)
    (eid : String) (he : findEntity entities eid = some e)
    (v0 : ViewportState) (m0 : Point) (s0 : DragState) :
    (∀ (v : ViewportState) (m : Point),
      handleDragMove v (handleDragStart entities v0 eid m0 s0) m =
        some (eid, dragScreenToWorld v
          ⟨m.x - (m0.x - (e.position.x * v0.scale + v0.x)),
           m.y - (m0.y - (e.position.y * v0.scale + v0.y))⟩)) ∧
    (∀ (v : ViewportState) (m : Point) (dx dy : ℚ),
      handleDragMove ⟨v.x + dx, v.y + dy, v.scale⟩
          (handleDragStart entities v0 eid m0 s0) ⟨m.x + dx, m.y + dy⟩ =
        handleDragMove v (handleDragStart entities v0 eid m0 s0) m) := by
  constructor
  · intro v m
    simp [handleDragStart, he, handleDragMove]
  · intro v m dx dy
    simp only [handleDragStart, he, handleDragMove, dragScreenToWorld,
      if_true, Option.some.injEq, Prod.mk.injEq, Point.mk.injEq]
    refine ⟨trivial, ?_, ?_⟩ <;> ring_nf

/-- Witness for C7: the spec's scenario. Element at world `(100, 100)`,
viewport `{0, 0, 1}`, drag started at screen `(100, 100)`; moving to
`(150, 130)` reports world `(150, 130)`, and after a pan by `(+20, 0)`
a pointer at `(170, 130)` still reports world `(150, 130)`. -/
theorem dragMove_reads_live_viewport_witness :
    handleDragMove ⟨0, 0, 1⟩
        (handleDragStart [⟨"e", ⟨100, 100⟩⟩] ⟨0, 0, 1⟩ "e" ⟨100, 100⟩ clearedDragState)
        ⟨150, 130⟩ = some ("e", ⟨150, 130⟩) ∧
    handleDragMove ⟨20, 0, 1⟩
        (handleDragStart [⟨"e", ⟨100, 100⟩⟩] ⟨0, 0, 1⟩ "e" ⟨100, 100⟩ clearedDragState)
        ⟨170, 130⟩ = some ("e", ⟨150, 130⟩) := by
  have hfind : findEntity [⟨"e", ⟨100, 100⟩⟩] "e" = some ⟨"e", ⟨100, 100⟩⟩ := rfl
  have h := dragMove_reads_live_viewport [⟨"e", ⟨100, 100⟩⟩] ⟨"e", ⟨100, 100⟩⟩
    "e" hfind ⟨0, 0, 1⟩ ⟨100, 100⟩ clearedDragState
  constructor
  · rw [h.1 ⟨0, 0, 1⟩ ⟨150, 130⟩]
    norm_num [dragScreenToWorld]
  · rw [h.1 ⟨20, 0, 1⟩ ⟨170, 130⟩]
    norm_num [dragScreenToWorld]

/-- Claim C8: the wheel handler normalises the vertical delta by delta
mode (line ×16, page ×400, pixel unchanged), scales it by the wheel
sensitivity, and clamps the resulting zoom delta magnitude to at most 0.1;
the horizontal delta never influences the result, and a zero vertical
delta produces no zoom. -/
theorem handleWheel_normalization (o : Options) (rl rt dY : ℚ)
    (mode : DeltaMode) (cX cY : ℚ) (hs : 0 ≤ o.scaleSensitivity) :
    (∀ dX dX', handleWheel o rl rt dX dY mode cX cY =
      handleWheel o rl rt dX' dY mode cX cY) ∧
    (normalizeWheelDelta .pixel dY = dY ∧
      normalizeWheelDelta .line dY = dY * 16 ∧
      normalizeWheelDelta .page dY = dY * 400) ∧
    (dY = 0 → ∀ dX, handleWheel o rl rt dX dY mode cX cY = none) ∧
    (∀ dX d c, handleWheel o rl rt dX dY mode cX cY = some (d, c) →
      d = -(jsSign (normalizeWheelDelta mode dY) *
            min (|normalizeWheelDelta mode dY| * o.scaleSensitivity) (1/10)) ∧
      |d| ≤ 1/10) := by
  refine ⟨fun _ _ => rfl, ⟨rfl, rfl, rfl⟩, ?_, ?_⟩
  · intro h0 dX
    subst h0
    simp [handleWheel]
  · intro dX d c h
    simp only [handleWheel] at h
    split_ifs at h with hz hd
    · rw [Option.some.injEq, Prod.mk.injEq] at h
      obtain ⟨hδ, -⟩ := h
      refine ⟨hδ.symm, ?_⟩
      have hA : (0 : ℚ) ≤ min (|normalizeWheelDelta mode dY| * o.scaleSensitivity) (1/10) :=
        le_min (mul_nonneg (abs_nonneg _) hs) (by norm_num)
      have hsign : |jsSign (normalizeWheelDelta mode dY)| ≤ 1 := by
        simp only [jsSign]
        split_ifs <;> norm_num
      calc |d| = |jsSign (normalizeWheelDelta mode dY)| *
            min (|normalizeWheelDelta mode dY| * o.scaleSensitivity) (1/10) := by
            rw [← hδ, abs_neg, abs_mul, abs_of_nonneg hA]
        _ ≤ 1 * min (|normalizeWheelDelta mode dY| * o.scaleSensitivity) (1/10) :=
            mul_le_mul_of_nonneg_right hsign hA
        _ ≤ 1/10 := by
            rw [one_mul]
            exact min_le_right _ _

/-- Witness for C8 at the default options: a pixel-mode wheel event with
`deltaY = 100` emits the clamped zoom delta `-0.1`. -/
theorem handleWheel_normalization_witness :
    handleWheel defaultOptions 0 0 5 100 .pixel 50 60 = some (-(1/10), ⟨50, 60⟩) ∧
    |(-(1/10) : ℚ)| ≤ 1/10 := by
  have heq : handleWheel defaultOptions 0 0 5 100 .pixel 50 60 =
      some (-(1/10), ⟨50, 60⟩) := by
    norm_num [handleWheel, defaultOptions, normalizeWheelDelta, jsSign]
  exact ⟨heq, ((handleWheel_normalization defaultOptions 0 0 100 .pixel 50 60
    (by norm_num [defaultOptions])).2.2.2 5 (-(1/10)) ⟨50, 60⟩ heq).2⟩

/-- Claim C9: two consecutive `panBy` calls compose additively — the final
state equals that of a single `panBy` with the summed deltas, the final
offset is the start offset plus the summed deltas — and `panBy` leaves the
scale unchanged (stated for states satisfying the data-model invariant;
`setViewport` re-clamps the scale, so an out-of-range stored scale would
be altered even by a pan). -/
theorem panBy_linear (o : Options) (v : ViewportState) (dx1 dy1 dx2 dy2 : ℚ)
    (hmin : o.minScale ≤ v.scale) (hmax : v.scale ≤ o.maxScale) :
    (panBy o (panBy o v dx1 dy1).state dx2 dy2).state =
      (panBy o v (dx1 + dx2) (dy1 + dy2)).state ∧
    (panBy o v (dx1 + dx2) (dy1 + dy2)).state.x = v.x + (dx1 + dx2) ∧
    (panBy o v (dx1 + dx2) (dy1 + dy2)).state.y = v.y + (dy1 + dy2) ∧
    (panBy o v dx1 dy1).state.scale = v.scale := by
  have hsc := clampScale_eq_self o v.scale hmin hmax
  refine ⟨?_, rfl, rfl, hsc⟩
  simp only [panBy, setViewport, Option.getD_some, Option.getD_none,
    ViewportState.mk.injEq, hsc]
  refine ⟨by ring, by ring, trivial⟩

/-- Witness for C9 at the default options, viewport `{1, 2, 3}` and the
deltas `(10, 20)` then `(-4, 6)`. -/
theorem panBy_linear_witness :
    (panBy defaultOptions (panBy defaultOptions ⟨1, 2, 3⟩ 10 20).state (-4) 6).state =
      (panBy defaultOptions ⟨1, 2, 3⟩ (10 + -4) (20 + 6)).state ∧
    (panBy defaultOptions ⟨1, 2, 3⟩ (10 + -4) (20 + 6)).state.x = 1 + (10 + -4) ∧
    (panBy defaultOptions ⟨1, 2, 3⟩ (10 + -4) (20 + 6)).state.y = 2 + (20 + 6) ∧
    (panBy defaultOptions ⟨1, 2, 3⟩ 10 20).state.scale = 3 :=
  panBy_linear defaultOptions ⟨1, 2, 3⟩ 10 20 (-4) 6
    (by norm_num [defaultOptions]) (by norm_num [defaultOptions])

/-- Helper: with a non-positive delta, a positive lower scale bound and a
scale above it, `zoomBy` cannot increase the stored scale. -/
theorem zoomBy_scale_noninc (o : Options) (v : ViewportState) (d : ℚ) (c : Point)
    (hmin : o.minScale ≤ v.scale) (hpos : 0 < v.scale) (hd : d ≤ 0) :
    (zoomBy o v d c).state.scale ≤ v.scale := by
  simp only [zoomBy]
  split_ifs with h
  · exact le_refl _
  · show clampScale o (v.scale * (1 + d)) ≤ v.scale
    apply clampScale_le o _ _ hmin
    nlinarith

/-- Helper: with a non-negative delta and a scale below the upper bound,
`zoomBy` cannot decrease the stored scale. -/
theorem zoomBy_scale_nondec (o : Options) (v : ViewportState) (d : ℚ) (c : Point)
    (hmax : v.scale ≤ o.maxScale) (hpos : 0 < v.scale) (hd : 0 ≤ d) :
    v.scale ≤ (zoomBy o v d c).state.scale := by
  simp only [zoomBy]
  split_ifs with h
  · exact le_refl _
  · show v.scale ≤ clampScale o (v.scale * (1 + d))
    apply le_clampScale o _ _ hmax
    nlinarith

/-- Helper: the sign of the zoom delta emitted by the wheel handler is
opposite to the sign of the vertical wheel delta (with a positive
sensitivity). -/
theorem handleWheel_delta_sign (o : Options) (rl rt dX dY : ℚ)
    (mode : DeltaMode) (cX cY : ℚ) (hs : 0 < o.scaleSensitivity)
    (d : ℚ) (c : Point)
    (h : handleWheel o rl rt dX dY mode cX cY = some (d, c)) :
    (0 < dY → d < 0) ∧ (dY < 0 → 0 < d) := by
  simp only [handleWheel] at h
  split_ifs at h with hz hd
  · rw [Option.some.injEq, Prod.mk.injEq] at h
    obtain ⟨hδ, -⟩ := h
    have hn : ∀ q : ℚ, 0 < q → 0 < normalizeWheelDelta mode q := by
      intro q hq
      cases mode <;> simp only [normalizeWheelDelta] <;> nlinarith
    have hn' : ∀ q : ℚ, q < 0 → normalizeWheelDelta mode q < 0 := by
      intro q hq
      cases mode <;> simp only [normalizeWheelDelta] <;> nlinarith
    constructor
    · intro hpos
      have h1 := hn dY hpos
      have hmin : 0 < min (|normalizeWheelDelta mode dY| * o.scaleSensitivity) (1/10) :=
        lt_min (mul_pos (abs_pos.mpr (ne_of_gt h1)) hs) (by norm_num)
      rw [← hδ, jsSign, if_pos h1]
      nlinarith
    · intro hneg
      have h1 := hn' dY hneg
      have hmin : 0 < min (|normalizeWheelDelta mode dY| * o.scaleSensitivity) (1/10) :=
        lt_min (mul_pos (abs_pos.mpr (ne_of_lt h1)) hs) (by norm_num)
      rw [← hδ, jsSign, if_neg (by linarith), if_pos h1]
      nlinarith

/-- Claim C10: scrolling down (positive vertical delta) makes the wheel
handler emit a negative zoom delta and the resulting scale never
increases; scrolling up emits a positive delta and the scale never
decreases. Stated for a positive sensitivity, a positive minimum scale
and a state satisfying the data-model invariant. -/
theorem wheel_zoom_direction (o : Options) (v : ViewportState)
    (rl rt dX dY : ℚ) (mode : DeltaMode) (cX cY : ℚ)
    (hs : 0 < o.scaleSensitivity)
    (hmin : o.minScale ≤ v.scale) (hmax : v.scale ≤ o.maxScale)
    (hposmin : 0 < o.minScale) :
    (∀ d c, handleWheel o rl rt dX dY mode cX cY = some (d, c) →
      (0 < dY → d < 0) ∧ (dY < 0 → 0 < d)) ∧
    (0 ≤ dY → (wheelZoom o v rl rt dX dY mode cX cY).state.scale ≤ v.scale) ∧
    (dY ≤ 0 → v.scale ≤ (wheelZoom o v rl rt dX dY mode cX cY).state.scale) := by
  have hpos : 0 < v.scale := lt_of_lt_of_le hposmin hmin
  refine ⟨fun d c h => handleWheel_delta_sign o rl rt dX dY mode cX cY hs d c h, ?_, ?_⟩
  · intro hdY
    rcases heq : handleWheel o rl rt dX dY mode cX cY with _ | ⟨d, c⟩
    · simp only [wheelZoom, heq]
      exact le_refl _
    · simp only [wheelZoom, heq]
      have hdne : dY ≠ 0 := by
        intro h0
        subst h0
        simp [handleWheel] at heq
      have hd : d < 0 :=
        (handleWheel_delta_sign o rl rt dX dY mode cX cY hs d c heq).1
          (lt_of_le_of_ne hdY (Ne.symm hdne))
      exact zoomBy_scale_noninc o v d c hmin hpos (le_of_lt hd)
  · intro hdY
    rcases heq : handleWheel o rl rt dX dY mode cX cY with _ | ⟨d, c⟩
    · simp only [wheelZoom, heq]
      exact le_refl _
    · simp only [wheelZoom, heq]
      have hdne : dY ≠ 0 := by
        intro h0
        subst h0
        simp [handleWheel] at heq
      have hd : 0 < d :=
        (handleWheel_delta_sign o rl rt dX dY mode cX cY hs d c heq).2
          (lt_of_le_of_ne hdY hdne)
      exact zoomBy_scale_nondec o v d c hmax hpos (le_of_lt hd)

/-- Witness for C10 at the default options: a downward scroll of 100
pixels on the viewport `{0, 0, 1}` emits delta `-0.1` and leaves the
scale no larger than 1. -/
theorem wheel_zoom_direction_witness :
    ((0 : ℚ) < 100 → -(1/10 : ℚ) < 0) ∧
    (wheelZoom defaultOptions ⟨0, 0, 1⟩ 0 0 5 100 .pixel 50 60).state.scale ≤ 1 := by
  have h := wheel_zoom_direction defaultOptions ⟨0, 0, 1⟩ 0 0 5 100 .pixel 50 60
    (by norm_num [defaultOptions]) (by norm_num [defaultOptions])
    (by norm_num [defaultOptions]) (by norm_num [defaultOptions])
  have heq : handleWheel defaultOptions 0 0 5 100 .pixel 50 60 =
      some (-(1/10), ⟨50, 60⟩) := by
    norm_num [handleWheel, defaultOptions, normalizeWheelDelta, jsSign]
  exact ⟨fun h100 => (h.1 (-(1/10)) ⟨50, 60⟩ heq).1 h100, h.2.1 (by norm_num)⟩

end Canvas

